import Mathlib

/-!
Shallow embedding of `src/analytics.js` (client-side page-analytics beacon):
identity storage, cookie parsing, the event envelope and dispatcher
(`sendGCPData`), and the `EventTracker` state machine, together with
theorems settling the specification's claims.

JS values are embedded as follows: a JS string-or-null/undefined slot is
`Option String` (with JS truthiness: `none` and `some ""` are falsy);
machine timestamps (`Date.now()`) are `Nat` milliseconds; JS number
arithmetic on these integral quantities is exact, so it is embedded as
`Int` with `Int.fdiv` for `Math.floor` of a division.
-/

/-- JS truthiness of a string-or-null/undefined value: `null`, `undefined`
and the empty string are falsy, every other string is truthy. -/
def jsTruthyStr : Option String → Bool
  | none => false
  | some s => !(s == "")

/-- Value of a JS hex digit, `none` for a non-hex character. -/
def hexDigitVal (c : Char) : Option Nat :=
  if '0' ≤ c ∧ c ≤ '9' then some (c.toNat - '0'.toNat)
  else if 'a' ≤ c ∧ c ≤ 'f' then some (c.toNat - 'a'.toNat + 10)
  else if 'A' ≤ c ∧ c ≤ 'F' then some (c.toNat - 'A'.toNat + 10)
  else none

/-- Model of the JS builtin `decodeURIComponent`, on the ASCII fragment:
percent-escapes of bytes below 0x80 are decoded, a malformed escape
(no two hex digits after `%`) throws (`none`). Escapes with the high bit
set start multi-byte UTF-8 sequences, which the claims never exercise;
they are conservatively mapped to failure as well. -/
def decodeURIComponentChars : List Char → Option (List Char)
  | [] => some []
  | c :: rest =>
    if c = '%' then
      match rest with
      | h :: l :: rest2 =>
        match hexDigitVal h, hexDigitVal l with
        | some a, some b =>
          if 16 * a + b < 128 then
            (decodeURIComponentChars rest2).map (fun t => Char.ofNat (16 * a + b) :: t)
          else none
        | _, _ => none
      | _ => none
    else (decodeURIComponentChars rest).map (fun t => c :: t)

/-- JS `String.prototype.split` with a single-character separator:
`"".split(s)` is `[""]`, separators at the ends produce empty pieces. -/
def jsSplit (sep : Char) : List Char → List (List Char)
  | [] => [[]]
  | c :: rest =>
    let r := jsSplit sep rest
    if c = sep then [] :: r
    else
      match r with
      | [] => [[c]]
      | p :: ps => (c :: p) :: ps

/-- JS `String.prototype.trim`: drop whitespace from both ends. -/
def trimChars (l : List Char) : List Char :=
  ((l.dropWhile Char.isWhitespace).reverse.dropWhile Char.isWhitespace).reverse

/-- JS object property assignment `o[k] = v` on an association list:
overwrite in place when the key exists, append otherwise. -/
def assocSet (l : List (String × String)) (k v : String) : List (String × String) :=
  match l with
  | [] => [(k, v)]
  | (k0, v0) :: rest => if k0 = k then (k, v) :: rest else (k0, v0) :: assocSet rest k v

/-- JS object property read `o[k]`: `none` embeds `undefined`. -/
def assocGet (l : List (String × String)) (k : String) : Option String :=
  match l with
  | [] => none
  | (k0, v0) :: rest => if k0 = k then some v0 else assocGet rest k

/-- Raw value selected by the destructuring `[name, value]` of the split
parts: the second piece when present; a missing piece is the JS
`undefined`, which `decodeURIComponent` coerces to the string
"undefined" before decoding. -/
def cookieRawValue : List (List Char) → List Char
  | _ :: v :: _ => v
  | _ => "undefined".toList

/-- One step of the `reduce` in `parseCookies` (src/analytics.js:47-51):
trim the entry, split on `=`, take the first piece as the name and
decode the destructured value; a decode failure throws out of the whole
reduce (`none`). -/
def parseCookieEntry (cookies : List (String × String)) (cookie : List Char) :
    Option (List (String × String)) :=
  match decodeURIComponentChars (cookieRawValue (jsSplit '=' (trimChars cookie))) with
  | some v =>
    some (assocSet cookies (String.mk ((jsSplit '=' (trimChars cookie)).headD []))
      (String.mk v))
  | none => none

/-- Model of `parseCookies` (src/analytics.js:46-52): split the cookie
header on `;` and reduce the entries into a JS object; `none` embeds a
thrown `URIError` from `decodeURIComponent`. -/
def parseCookies (s : String) : Option (List (String × String)) :=
  (jsSplit ';' s.toList).foldlM parseCookieEntry []

/-- Lowercase hex digit of a nibble, as produced by `v.toString(16)`. -/
def hexChar (v : Nat) : Char :=
  if v < 10 then Char.ofNat ('0'.toNat + v) else Char.ofNat ('a'.toNat + v - 10)

/-- Character list of the template string
`xxxxxxxx-xxxx-4xxx-yxxx-xxxxxxxxxxxx` used by `uuidv4`. -/
def uuidTemplate : List Char :=
  ['x', 'x', 'x', 'x', 'x', 'x', 'x', 'x', '-',
   'x', 'x', 'x', 'x', '-',
   '4', 'x', 'x', 'x', '-',
   'y', 'x', 'x', 'x', '-',
   'x', 'x', 'x', 'x', 'x', 'x', 'x', 'x', 'x', 'x', 'x', 'x']

/-- The `replace(/[xy]/g, ...)` of `uuidv4`: each `x` is replaced by a
random nibble in hex, each `y` by `(r AND 3) OR 8 = r MOD 4 + 8`; `f`
enumerates the successive values of `(Math.random() * 16) OR 0`. -/
def uuidReplace (f : Nat → Fin 16) : List Char → Nat → List Char
  | [], _ => []
  | c :: rest, i =>
    if c = 'x' then hexChar (f i) :: uuidReplace f rest (i + 1)
    else if c = 'y' then hexChar ((f i).val % 4 + 8) :: uuidReplace f rest (i + 1)
    else c :: uuidReplace f rest i

/-- Model of `uuidv4` (src/analytics.js:13-22). -/
def uuidv4 (f : Nat → Fin 16) : String :=
  String.mk (uuidReplace f uuidTemplate 0)

/-- Model of `getSessionId` (src/analytics.js:24-31): `slot` is the
`sessionStorage` entry `analytics_session_id` (`none` embeds `null`),
`f` the randomness consumed by `uuidv4` on a miss. Returns the value
and the updated storage slot. -/
def getSessionId (slot : Option String) (f : Nat → Fin 16) : String × Option String :=
  if jsTruthyStr slot then (slot.getD "", slot)
  else
    let sessionId := uuidv4 f
    (sessionId, some sessionId)

/-- Model of `getClientId` (src/analytics.js:33-44): `slot` is the
`localStorage` entry `analytics_client_id`, `nowMs` is `Date.now()`,
`nanoid` the global nanoid function's output when loaded, and
`fallbackToken` the value of `Math.random().toString(36).substring(2, 14)`
used when it is not. -/
def getClientId (slot : Option String) (nowMs : Nat) (nanoid : Option String)
    (fallbackToken : String) : String × Option String :=
  if jsTruthyStr slot then (slot.getD "", slot)
  else
    let token := match nanoid with
      | some n => n
      | none => fallbackToken
    let clientId := Nat.repr (nowMs / 1000) ++ "-" ++ token
    (clientId, some clientId)

/-- Location snapshot fields read from `document.location` /
`window.location` (src/analytics.js:82-92, 111-121). -/
structure LocationSnap where
  href : String
  hash : String
  host : String
  hostname : String
  origin : String
  pathname : String
  port : String
  protocol : String
  search : String
deriving Repr, DecidableEq

/-- Nested `document` snapshot of the envelope (src/analytics.js:81-96). -/
structure DocumentSnap where
  location : LocationSnap
  referrer : String
  characterSet : String
  title : String
deriving Repr, DecidableEq

/-- Nested `navigator` snapshot of the envelope (src/analytics.js:97-103). -/
structure NavigatorSnap where
  language : String
  languages : List String
  userAgent : String
  ga_cookie_id : Option String
  ip_address : Option String
deriving Repr, DecidableEq

/-- Nested `window.screen` snapshot (src/analytics.js:123-126). -/
structure ScreenSnap where
  height : Int
  width : Int
deriving Repr, DecidableEq

/-- Nested `window` snapshot of the envelope (src/analytics.js:104-131). -/
structure WindowSnap where
  innerHeight : Int
  innerWidth : Int
  outerHeight : Int
  outerWidth : Int
  pageXOffset : Int
  pageYOffset : Int
  location : LocationSnap
  origin : String
  screen : ScreenSnap
  screenX : Int
  screenY : Int
  scrollX : Int
  scrollY : Int
deriving Repr, DecidableEq

/-- The event envelope assembled in `sendGCPData` (src/analytics.js:74-132),
before the `event_data` merge. -/
structure EventEnvelope where
  event_id : String
  event_name : String
  event_type : String
  client_id : String
  session_id : String
  event_timestamp : String
  document : DocumentSnap
  navigator : NavigatorSnap
  window : WindowSnap
deriving Repr, DecidableEq

/-- Extra-data mapping passed to `sendGCPData` / `Analytics.track`;
values are embedded as their serialized scalars. -/
abbrev EventData := List (String × String)

/-- The transmitted record `finalEvent` (src/analytics.js:134-137): the
spread of the envelope plus an optional `event_data` property. -/
structure FinalEvent where
  base : EventEnvelope
  event_data : Option EventData
deriving Repr, DecidableEq

/-- A JS argument position: distinguishes an omitted argument (the
default applies) from an explicitly passed `null` and from a real value. -/
inductive JsArg (α : Type) where
  | omitted
  | null
  | val (a : α)
deriving Repr, DecidableEq

/-- Default-parameter resolution for `additionalData = {}` followed by the
truthiness test on line 135: an omitted argument becomes the empty object,
which like every object is truthy; explicit `null` stays falsy. -/
def resolveAdditional : JsArg EventData → Option EventData
  | .omitted => some []
  | .null => none
  | .val d => some d

/-- The `event_data` merge (src/analytics.js:134-137): when the additional
data is truthy the final record is the envelope spread plus `event_data`;
otherwise it is the bare envelope (no `event_data` property). -/
def mergeAdditional (event : EventEnvelope) (additionalData : Option EventData) : FinalEvent :=
  match additionalData with
  | some d => { base := event, event_data := some d }
  | none => { base := event, event_data := none }

/-- Ambient browser state read while assembling the envelope. -/
structure Browser where
  cookie : String
  docLocation : LocationSnap
  referrer : String
  characterSet : String
  title : String
  language : String
  languages : List String
  userAgent : String
  innerHeight : Int
  innerWidth : Int
  outerHeight : Int
  outerWidth : Int
  scrollX : Int
  scrollY : Int
  winLocation : LocationSnap
  origin : String
  screenHeight : Int
  screenWidth : Int
  screenX : Int
  screenY : Int
deriving Repr, DecidableEq

/-- Envelope assembly (src/analytics.js:74-132) as a function of the
ambient browser state, the fresh `event_id`, the identities, the ISO
timestamp, the parsed cookies and the resolved `ip_address`. -/
def buildEvent (br : Browser) (eventId eventName clientId sessionId timestamp : String)
    (cookies : List (String × String)) (ip : Option String) : EventEnvelope :=
  { event_id := eventId
    event_name := eventName
    event_type := "custom"
    client_id := clientId
    session_id := sessionId
    event_timestamp := timestamp
    document :=
      { location := br.docLocation
        referrer := br.referrer
        characterSet := br.characterSet
        title := br.title }
    navigator :=
      { language := br.language
        languages := br.languages
        userAgent := br.userAgent
        ga_cookie_id := assocGet cookies "_ga"
        ip_address := ip }
    window :=
      { innerHeight := br.innerHeight
        innerWidth := br.innerWidth
        outerHeight := br.outerHeight
        outerWidth := br.outerWidth
        pageXOffset := br.scrollX
        pageYOffset := br.scrollY
        location := br.winLocation
        origin := br.origin
        screen := { height := br.screenHeight, width := br.screenWidth }
        screenX := br.screenX
        screenY := br.screenY
        scrollX := br.scrollX
        scrollY := br.scrollY } }

/-- The POST issued by the dispatcher: target URL and JSON body. -/
structure Request where
  url : String
  body : FinalEvent
deriving Repr, DecidableEq

/-- Observable outcome of one `sendGCPData` call: the request to the
collection endpoint when one is issued, the number of IP-echo
(`getUserIP`) calls performed, and whether the call threw out of the
function (only `parseCookies`, line 69, runs outside the `try`). -/
structure SendResult where
  request : Option Request
  ipEchoCalls : Nat
  threw : Bool
deriving Repr, DecidableEq

/-- Per-call inputs of `sendGCPData` that come from the environment:
the ambient browser state, the fresh uuid and timestamp, the identities,
the cached `window.Analytics.ip_address` (`none` embeds both `undefined`
and `null`, equally falsy) and the result a fresh `getUserIP` call would
produce (`none` embeds a failed lookup returning `null`). -/
structure SendInputs where
  browser : Browser
  eventId : String
  clientId : String
  sessionId : String
  timestamp : String
  analyticsIp : Option String
  ipLookup : Option String
deriving Repr, DecidableEq

/-- Model of `sendGCPData` (src/analytics.js:66-154). `endpoint` is the
module constant `ANALYTICS_ENDPOINT` captured at load (line 10);
`windowDefined` the `typeof window` guard. A falsy endpoint returns
before any work; then cookies are parsed outside the `try`; the
`ip_address` field reuses the cached value only when truthy, otherwise a
fresh IP-echo call is made; the final record is POSTed to the endpoint. -/
def sendGCPData (endpoint : Option String) (windowDefined : Bool) (inp : SendInputs)
    (eventName : String) (additionalData : JsArg EventData) : SendResult :=
  if !jsTruthyStr endpoint || !windowDefined then
    { request := none, ipEchoCalls := 0, threw := false }
  else
    match parseCookies inp.browser.cookie with
    | none => { request := none, ipEchoCalls := 0, threw := true }
    | some cookies =>
      let ipAndCalls : Option String × Nat :=
        if jsTruthyStr inp.analyticsIp then (inp.analyticsIp, 0) else (inp.ipLookup, 1)
      let event := buildEvent inp.browser inp.eventId eventName inp.clientId inp.sessionId
        inp.timestamp cookies ipAndCalls.1
      let finalEvent := mergeAdditional event (resolveAdditional additionalData)
      { request := some { url := (endpoint.getD ""), body := finalEvent }
        ipEchoCalls := ipAndCalls.2
        threw := false }

/-- The module constant `ANALYTICS_ENDPOINT = window.ANALYTICS_ENDPOINT
or null` captured once at script load (src/analytics.js:10); this, not
the live `window.ANALYTICS_ENDPOINT`, is what `sendGCPData` reads. -/
def loadTimeEndpoint (windowEndpointAtLoad : Option String) : Option String :=
  if jsTruthyStr windowEndpointAtLoad then windowEndpointAtLoad else none

/-- The assignment `window.ANALYTICS_ENDPOINT = config.endpoint or
window.ANALYTICS_ENDPOINT` performed by `initAnalytics`
(src/analytics.js:255): the value of the global slot after init. -/
def initWindowEndpoint (configEndpoint : Option String) (windowEndpoint : Option String) :
    Option String :=
  if jsTruthyStr configEndpoint then configEndpoint else windowEndpoint

/-- In-memory tracker state (src/analytics.js:157-165); timestamps are
`Date.now()` milliseconds, the accumulated counter is a JS number kept
exactly as an `Int`. The debounce timer handle is modelled at the level
of fired callbacks, not stored. -/
structure TrackerState where
  startTime : Nat
  totalTimeOnPage : Int
  isHidden : Bool
  lastVisibilityChange : Nat
  maxScrollDepth : Int
deriving Repr, DecidableEq

/-- The `EventTracker` constructor (src/analytics.js:158-165). -/
def trackerInit (now : Nat) : TrackerState :=
  { startTime := now
    totalTimeOnPage := 0
    isHidden := false
    lastVisibilityChange := now
    maxScrollDepth := 0 }

/-- Model of `calculateTimeOnPage` (src/analytics.js:167-174): accrue the
interval since the last visibility change only while not hidden, stamp
`lastVisibilityChange` to now, and return whole elapsed seconds rounded
down (`Math.floor` of the millisecond counter over 1000). -/
def calculateTimeOnPage (now : Nat) (st : TrackerState) : Int × TrackerState :=
  let total :=
    if st.isHidden then st.totalTimeOnPage
    else st.totalTimeOnPage + ((now : Int) - (st.lastVisibilityChange : Int))
  (Int.fdiv total 1000, { st with totalTimeOnPage := total, lastVisibilityChange := now })

/-- Payloads of the dispatched events, one constructor per `sendGCPData`
call site in the tracker and bootstrap. -/
inductive Ev where
  | page_viewed (initial_referrer page_title : String)
  | page_hidden (time_on_page : Int)
  | page_visible (time_on_page : Int)
  | clicked (link_url link_text link_id link_class : String) (time_on_page : Int)
  | scroll_depth (depth_percentage scroll_position time_on_page : Int)
  | total_time_on_page (duration_seconds session_duration max_scroll_depth : Int)
deriving Repr, DecidableEq

/-- Model of `handleVisibilityChange` (src/analytics.js:176-189), with
`documentHidden` the value of `document.hidden`. Transcribed in source
order: on hidden the flag is set to true first and only then is
`calculateTimeOnPage` evaluated as the payload argument; on visible the
flag is cleared and the last-change stamp reset before the payload
evaluation. -/
def handleVisibilityChange (documentHidden : Bool) (now : Nat) (st : TrackerState) :
    TrackerState × Ev :=
  if documentHidden then
    let st1 := { st with isHidden := true }
    let r := calculateTimeOnPage now st1
    (r.2, .page_hidden r.1)
  else
    let st1 := { st with isHidden := false, lastVisibilityChange := now }
    let r := calculateTimeOnPage now st1
    (r.2, .page_visible r.1)

/-- The `<a>` ancestor of a click target, when one exists. -/
structure LinkInfo where
  href : String
  text : String
  id : String
  className : String
deriving Repr, DecidableEq

/-- Model of `handleClick` (src/analytics.js:191-202): dispatch only when
the click target has an `<a>` ancestor. -/
def handleClick (link : Option LinkInfo) (now : Nat) (st : TrackerState) :
    TrackerState × Option Ev :=
  match link with
  | some a =>
    let r := calculateTimeOnPage now st
    (r.2, some (.clicked a.href a.text.trim a.id a.className r.1))
  | none => (st, none)

/-- Model of the debounced scroll callback body (src/analytics.js:209-223).
The depth is the environment-determined value of
`Math.round(scrollPosition / (scrollHeight - innerHeight) * 100)` at fire
time (float arithmetic; for zero scrollable overflow it is NaN/Infinity
and, being incomparable or saturating, still passes through the same
strict-greater gate modelled here). Dispatch happens only when the depth
strictly exceeds the stored maximum, which is updated first. -/
def handleScrollFire (scrollDepth scrollPosition : Int) (now : Nat) (st : TrackerState) :
    TrackerState × Option Ev :=
  if scrollDepth > st.maxScrollDepth then
    let st1 := { st with maxScrollDepth := scrollDepth }
    let r := calculateTimeOnPage now st1
    (r.2, some (.scroll_depth scrollDepth scrollPosition r.1))
  else (st, none)

/-- Model of the `beforeunload` listener (src/analytics.js:241-248):
`timeSpent` is computed first, then the payload reads the session wall
clock and the stored max scroll depth. -/
def handleBeforeUnload (now : Nat) (st : TrackerState) : TrackerState × Ev :=
  let r := calculateTimeOnPage now st
  (r.2, .total_time_on_page r.1 ((now : Int) - (st.startTime : Int)) st.maxScrollDepth)

/-- Environment occurrences delivered to the tracker's listeners. A
`scrollFire` is the trailing debounced callback after 500ms of scroll
quiescence, carrying the depth and raw offset computed at fire time. -/
inductive Occ where
  | visibility (documentHidden : Bool)
  | scrollFire (depth pos : Int)
  | click (link : Option LinkInfo)
deriving Repr, DecidableEq

/-- Dispatch one occurrence to the corresponding handler, collecting the
`sendGCPData` calls it makes. -/
def stepOcc (o : Occ) (now : Nat) (st : TrackerState) : TrackerState × List Ev :=
  match o with
  | .visibility h =>
    let r := handleVisibilityChange h now st
    (r.1, [r.2])
  | .scrollFire d p =>
    let r := handleScrollFire d p now st
    (r.1, r.2.toList)
  | .click l =>
    let r := handleClick l now st
    (r.1, r.2.toList)

/-- Run the tracker over a timestamped occurrence trace, collecting every
`sendGCPData` call in order. -/
def runTracker (st : TrackerState) : List (Nat × Occ) → TrackerState × List Ev
  | [] => (st, [])
  | (now, o) :: rest =>
    let r1 := stepOcc o now st
    let r2 := runTracker r1.1 rest
    (r2.1, r1.2 ++ r2.2)

/-- One page lifetime as wired by `initializeTracking`
(src/analytics.js:226-249): the initial `page_viewed` dispatch, the
listener-driven occurrences, and the final `beforeunload` flush. The
result lists every `sendGCPData` call with its payload. -/
def pageRun (t0 : Nat) (referrer title : String) (occs : List (Nat × Occ)) (tUnload : Nat) :
    List Ev :=
  let st0 := trackerInit t0
  let r1 := runTracker st0 occs
  let rFinal := handleBeforeUnload tUnload r1.1
  Ev.page_viewed referrer title :: r1.2 ++ [rFinal.2]

/-- The endpoint gate of `sendGCPData` (src/analytics.js:67) applied to a
page's dispatch calls: with a falsy load-time endpoint every call returns
before issuing a request, otherwise each call proceeds to transmission. -/
def sentEvents (endpoint : Option String) (attempts : List Ev) : List Ev :=
  if jsTruthyStr endpoint then attempts else []

/-- Depth percentages carried by the dispatched `scroll_depth` events,
in dispatch order. -/
def scrollDepths : List Ev → List Int
  | [] => []
  | .scroll_depth d _ _ :: rest => d :: scrollDepths rest
  | _ :: rest => scrollDepths rest

/-- Concrete location snapshot used by closed instances. -/
def sampleLocation : LocationSnap :=
  { href := "https://example.com/"
    hash := ""
    host := "example.com"
    hostname := "example.com"
    origin := "https://example.com"
    pathname := "/"
    port := ""
    protocol := "https:"
    search := "" }

/-- Concrete ambient browser state used by closed instances. -/
def sampleBrowser : Browser :=
  { cookie := ""
    docLocation := sampleLocation
    referrer := ""
    characterSet := "UTF-8"
    title := "Home"
    language := "en-US"
    languages := ["en-US"]
    userAgent := "UA"
    innerHeight := 800
    innerWidth := 600
    outerHeight := 800
    outerWidth := 600
    scrollX := 0
    scrollY := 0
    winLocation := sampleLocation
    origin := "https://example.com"
    screenHeight := 1080
    screenWidth := 1920
    screenX := 0
    screenY := 0 }

/-- Concrete per-call inputs with no cached IP and a failed lookup. -/
def sampleInputs : SendInputs :=
  { browser := sampleBrowser
    eventId := "e-1"
    clientId := "c-1"
    sessionId := "s-1"
    timestamp := "2026-10-11T00:00:00.000Z"
    analyticsIp := none
    ipLookup := none }

/-- Concrete per-call inputs with a truthy cached IP. -/
def sampleInputsCachedIp : SendInputs :=
  { sampleInputs with analyticsIp := some "203.0.113.7", ipLookup := some "203.0.113.7" }

/-- C4: a send/track call made while the configured endpoint is falsy
(absent, empty, or null) is a no-op: it issues no request to the
collection endpoint, performs no IP-echo call, and throws no error. -/
theorem send_noop_on_falsy_endpoint (endpoint : Option String) (windowDefined : Bool)
    (inp : SendInputs) (eventName : String) (ad : JsArg EventData)
    (h : endpoint = none ∨ endpoint = some "") :
    sendGCPData endpoint windowDefined inp eventName ad =
      { request := none, ipEchoCalls := 0, threw := false } := by
  rcases h with h | h <;> subst h <;> simp [sendGCPData, jsTruthyStr]

/-- Closed instance of the C4 theorem at a concrete call. -/
theorem send_noop_on_falsy_endpoint_witness :
    sendGCPData none true sampleInputs "page_viewed" .omitted =
      { request := none, ipEchoCalls := 0, threw := false } :=
  send_noop_on_falsy_endpoint none true sampleInputs "page_viewed" .omitted (Or.inl rfl)

/-- C2 (code evaluated at the failing input): with no endpoint pre-set at
load, `initAnalytics` with a configuration endpoint does update the
global slot, yet a subsequent send is still a no-op, because the
dispatcher reads the module constant captured at load time (line 10),
never the updated global. -/
theorem config_endpoint_ignored_by_dispatcher :
    initWindowEndpoint (some "https://collect.example/v1") none =
      some "https://collect.example/v1" ∧
    sendGCPData (loadTimeEndpoint none) true sampleInputs "page_viewed" .omitted =
      { request := none, ipEchoCalls := 0, threw := false } := by
  constructor
  · rfl
  · rfl

/-- C1 (code evaluated at the failing input): page visible from t=0ms,
hidden at 5000ms, visible at 8000ms, hidden at 12000ms. The dispatched
events carry `time_on_page` 0, 0, 0, whereas the cumulative not-hidden
whole seconds at the three dispatches are 5, 5 and 9: `isHidden` is set
to `true` before `calculateTimeOnPage` runs, so the elapsed visible
interval is dropped rather than flushed. -/
theorem visibility_time_lost_at_hide :
    (runTracker (trackerInit 0)
      [(5000, Occ.visibility true), (8000, Occ.visibility false),
       (12000, Occ.visibility true)]).2 =
      [Ev.page_hidden 0, Ev.page_visible 0, Ev.page_hidden 0] := by
  rfl

/-- C7: when an extra-data mapping is passed, the merge is shallow and
non-invasive: the transmitted record's spread part (every top-level
envelope field, including the nested document/navigator/window
snapshots) is exactly what it would be without the extra data, and the
extra mapping appears only under the `event_data` key. -/
theorem event_data_merge_shallow (u : String) (inp : SendInputs) (eventName : String)
    (d : EventData) (cookies : List (String × String)) (hu : u ≠ "")
    (hcook : parseCookies inp.browser.cookie = some cookies) :
    (sendGCPData (some u) true inp eventName (.val d)).request.map (fun q => q.body.base) =
      (sendGCPData (some u) true inp eventName .omitted).request.map (fun q => q.body.base) ∧
    (sendGCPData (some u) true inp eventName (.val d)).request.map (fun q => q.body.event_data) =
      some (some d) := by
  constructor <;>
    simp [sendGCPData, jsTruthyStr, hu, hcook, mergeAdditional, resolveAdditional]

/-- Closed instance of the C7 theorem at a concrete call. -/
theorem event_data_merge_shallow_witness :
    (sendGCPData (some "https://collect.example/v1") true sampleInputs "clicked"
        (.val [("k", "v")])).request.map (fun q => q.body.base) =
      (sendGCPData (some "https://collect.example/v1") true sampleInputs "clicked"
        .omitted).request.map (fun q => q.body.base) ∧
    (sendGCPData (some "https://collect.example/v1") true sampleInputs "clicked"
        (.val [("k", "v")])).request.map (fun q => q.body.event_data) =
      some (some [("k", "v")]) :=
  event_data_merge_shallow "https://collect.example/v1" sampleInputs "clicked"
    [("k", "v")] [("", "undefined")] (by decide) (by decide)

/-- C10: omitting the extra-data argument still yields an `event_data`
field bound to the empty mapping (the defaulted empty object is truthy),
while an explicitly passed falsy value such as `null` yields a
transmitted record with no `event_data` field. -/
theorem event_data_present_when_omitted (u : String) (inp : SendInputs) (eventName : String)
    (cookies : List (String × String)) (hu : u ≠ "")
    (hcook : parseCookies inp.browser.cookie = some cookies) :
    (sendGCPData (some u) true inp eventName .omitted).request.map
        (fun q => q.body.event_data) = some (some ([] : EventData)) ∧
    (sendGCPData (some u) true inp eventName .null).request.map
        (fun q => q.body.event_data) = some none := by
  constructor <;>
    simp [sendGCPData, jsTruthyStr, hu, hcook, mergeAdditional, resolveAdditional]

/-- Closed instance of the C10 theorem at a concrete call. -/
theorem event_data_present_when_omitted_witness :
    (sendGCPData (some "https://collect.example/v1") true sampleInputs "page_viewed"
        .omitted).request.map (fun q => q.body.event_data) = some (some ([] : EventData)) ∧
    (sendGCPData (some "https://collect.example/v1") true sampleInputs "page_viewed"
        .null).request.map (fun q => q.body.event_data) = some none :=
  event_data_present_when_omitted "https://collect.example/v1" sampleInputs "page_viewed"
    [("", "undefined")] (by decide) (by decide)

/-- C3 counterexample: the initialization-time lookup has completed and
failed, so the cached `Analytics.ip_address` is `null`; a single
subsequent send with a configured endpoint performs one more IP-echo
request, contradicting the claim that no send performs another IP-echo
request when the cached value is null. -/
theorem ip_echo_refetched_when_cache_null :
    (sendGCPData (some "https://collect.example/v1") true sampleInputs "custom_event"
        .omitted).ipEchoCalls = 1 := by
  rfl

/-- C3 (amended): the cached IP is reused only when truthy. Every send
that finds a truthy cached `Analytics.ip_address` performs no IP-echo
call; a send with a configured endpoint that finds the cache null or
undefined (in particular after a failed initialization lookup) performs
exactly one more IP-echo call. -/
theorem ip_echo_cache_reuse (endpoint : Option String) (w : Bool) (inp : SendInputs)
    (eventName : String) (ad : JsArg EventData) :
    (∀ s : String, inp.analyticsIp = some s → s ≠ "" →
      (sendGCPData endpoint w inp eventName ad).ipEchoCalls = 0) ∧
    (∀ (u : String) (cookies : List (String × String)), endpoint = some u → u ≠ "" →
      w = true → parseCookies inp.browser.cookie = some cookies → inp.analyticsIp = none →
      (sendGCPData endpoint w inp eventName ad).ipEchoCalls = 1) := by
  constructor
  · intro s hs hne
    unfold sendGCPData
    split
    · rfl
    · cases hcook : parseCookies inp.browser.cookie with
      | none => simp [hcook]
      | some cookies => simp [hcook, hs, jsTruthyStr, hne]
  · intro u cookies hu hune hw hcook hnull
    subst hu; subst hw
    simp [sendGCPData, jsTruthyStr, hune, hcook, hnull]

/-- Closed instance of the C3 amended theorem: one send reusing a truthy
cached IP, one send re-fetching on a null cache. -/
theorem ip_echo_cache_reuse_witness :
    (sendGCPData (some "https://collect.example/v1") true sampleInputsCachedIp "custom_event"
        .omitted).ipEchoCalls = 0 ∧
    (sendGCPData (some "https://collect.example/v1") true sampleInputs "custom_event"
        .omitted).ipEchoCalls = 1 :=
  ⟨(ip_echo_cache_reuse (some "https://collect.example/v1") true sampleInputsCachedIp
      "custom_event" .omitted).1 "203.0.113.7" rfl (by decide),
   (ip_echo_cache_reuse (some "https://collect.example/v1") true sampleInputs
      "custom_event" .omitted).2 "https://collect.example/v1" [("", "undefined")] rfl
      (by decide) rfl (by decide) rfl⟩

/-- Depth extraction distributes over concatenation of dispatch lists. -/
theorem scrollDepths_append (l1 l2 : List Ev) :
    scrollDepths (l1 ++ l2) = scrollDepths l1 ++ scrollDepths l2 := by
  induction l1 with
  | nil => rfl
  | cons e rest ih => cases e <;> simp [scrollDepths, ih]

/-- One occurrence either leaves the stored maximum unchanged and
dispatches no `scroll_depth` event, or is a scroll fire whose depth
strictly exceeds the stored maximum, stores that depth as the new
maximum and dispatches exactly it. -/
theorem stepOcc_max_analysis (o : Occ) (now : Nat) (st : TrackerState) :
    ((stepOcc o now st).1.maxScrollDepth = st.maxScrollDepth ∧
      scrollDepths (stepOcc o now st).2 = []) ∨
    (∃ d p, o = Occ.scrollFire d p ∧ st.maxScrollDepth < d ∧
      (stepOcc o now st).1.maxScrollDepth = d ∧
      scrollDepths (stepOcc o now st).2 = [d]) := by
  cases o with
  | visibility h =>
    left
    cases h <;>
      simp [stepOcc, handleVisibilityChange, calculateTimeOnPage, scrollDepths]
  | click l =>
    left
    cases l <;> simp [stepOcc, handleClick, calculateTimeOnPage, scrollDepths]
  | scrollFire d p =>
    by_cases hd : d > st.maxScrollDepth
    · right
      exact ⟨d, p, rfl, hd,
        by simp [stepOcc, handleScrollFire, hd, calculateTimeOnPage],
        by simp [stepOcc, handleScrollFire, hd, calculateTimeOnPage, scrollDepths]⟩
    · left
      simp [stepOcc, handleScrollFire, hd, scrollDepths]

/-- Every depth dispatched along a run strictly exceeds the maximum
stored at the start of the run. -/
theorem runTracker_depths_gt (tr : List (Nat × Occ)) :
    ∀ (st : TrackerState) (d : Int), d ∈ scrollDepths (runTracker st tr).2 →
      st.maxScrollDepth < d := by
  induction tr with
  | nil =>
    intro st d hd
    simp [runTracker, scrollDepths] at hd
  | cons p rest ih =>
    intro st d hd
    obtain ⟨now, o⟩ := p
    simp only [runTracker] at hd
    rw [scrollDepths_append, List.mem_append] at hd
    rcases stepOcc_max_analysis o now st with ⟨hmax, hdep⟩ | ⟨d0, p0, _, hgt, hmax, hdep⟩
    · rcases hd with hd | hd
      · rw [hdep] at hd
        simp at hd
      · exact hmax ▸ ih _ d hd
    · rcases hd with hd | hd
      · rw [hdep] at hd
        simp at hd
        exact hd ▸ hgt
      · exact lt_trans hgt (hmax ▸ ih _ d hd)

/-- C5: within one page lifetime, the sequence of depth percentages
carried by the dispatched `scroll_depth` events is strictly increasing:
a dispatch occurs only when the computed depth strictly exceeds every
previously dispatched depth (the stored maximum is a high-water mark
updated on each dispatch). -/
theorem scroll_depths_strictly_increasing (t0 : Nat) (tr : List (Nat × Occ)) :
    List.Pairwise (fun a b => a < b)
      (scrollDepths (runTracker (trackerInit t0) tr).2) := by
  suffices h : ∀ (l : List (Nat × Occ)) (st : TrackerState),
      List.Pairwise (fun a b => a < b) (scrollDepths (runTracker st l).2) from
    h tr (trackerInit t0)
  intro l
  induction l with
  | nil =>
    intro st
    simp [runTracker, scrollDepths]
  | cons p rest ih =>
    intro st
    obtain ⟨now, o⟩ := p
    simp only [runTracker]
    rw [scrollDepths_append]
    rcases stepOcc_max_analysis o now st with ⟨_, hdep⟩ | ⟨d0, p0, _, _, hmax, hdep⟩
    · rw [hdep]
      simpa using ih _
    · rw [hdep]
      refine List.pairwise_cons.mpr ⟨fun x hx => ?_, by simpa using ih _⟩
      simp only [List.singleton_append, List.nil_append] at hx
      exact hmax ▸ runTracker_depths_gt rest _ x hx

/-- C9: a page loaded at any time t0 with the endpoint
`https://collect.example/v1` configured, continuously visible with no
scroll or click, unloaded after 3000ms, sends exactly two events:
`page_viewed` at load and `total_time_on_page` carrying
`duration_seconds` 3 and `max_scroll_depth` 0 (and wall-clock
`session_duration` 3000ms). -/
theorem two_sends_scenario (t0 : Nat) (referrer title : String) :
    sentEvents (some "https://collect.example/v1")
        (pageRun t0 referrer title [] (t0 + 3000)) =
      [Ev.page_viewed referrer title, Ev.total_time_on_page 3 3000 0] := by
  have h : ((t0 + 3000 : Nat) : Int) - (t0 : Int) = 3000 := by push_cast; ring
  simp [sentEvents, jsTruthyStr, pageRun, runTracker, handleBeforeUnload,
    calculateTimeOnPage, trackerInit, h]

/-- Membership in a dropWhile result implies membership in the list. -/
theorem mem_of_mem_dropWhile {p : Char → Bool} {l : List Char} {c : Char}
    (h : c ∈ l.dropWhile p) : c ∈ l := by
  induction l with
  | nil => simp at h
  | cons a rest ih =>
    by_cases ha : p a
    · rw [List.dropWhile_cons_of_pos ha] at h
      exact List.mem_cons_of_mem a (ih h)
    · rwa [List.dropWhile_cons_of_neg ha] at h

/-- Trimming only removes characters. -/
theorem mem_of_mem_trimChars {l : List Char} {c : Char} (h : c ∈ trimChars l) : c ∈ l := by
  unfold trimChars at h
  rw [List.mem_reverse] at h
  have h2 := mem_of_mem_dropWhile h
  rw [List.mem_reverse] at h2
  exact mem_of_mem_dropWhile h2

/-- The split of a list is never empty. -/
theorem jsSplit_ne_nil (sep : Char) (l : List Char) : jsSplit sep l ≠ [] := by
  cases l with
  | nil => simp [jsSplit]
  | cons a rest =>
    by_cases ha : a = sep
    · simp [jsSplit, ha]
    · simp only [jsSplit, if_neg ha]
      cases jsSplit sep rest <;> simp

/-- Every character of a split piece is a character of the split list. -/
theorem mem_of_mem_jsSplit {sep : Char} {l : List Char} {p : List Char} {c : Char}
    (hp : p ∈ jsSplit sep l) (hc : c ∈ p) : c ∈ l := by
  induction l generalizing p with
  | nil =>
    simp [jsSplit] at hp
    subst hp
    simp at hc
  | cons a rest ih =>
    by_cases ha : a = sep
    · rw [jsSplit, if_pos ha] at hp
      rcases List.mem_cons.mp hp with h | h
      · subst h; simp at hc
      · exact List.mem_cons_of_mem a (ih h hc)
    · rw [jsSplit, if_neg ha] at hp
      cases hr : jsSplit sep rest with
      | nil => exact absurd hr (jsSplit_ne_nil sep rest)
      | cons q qs =>
        rw [hr] at hp
        rcases List.mem_cons.mp hp with h | h
        · subst h
          rcases List.mem_cons.mp hc with h2 | h2
          · exact h2 ▸ List.mem_cons_self a rest
          · exact List.mem_cons_of_mem a (ih (hr ▸ List.mem_cons_self q qs) h2)
        · exact List.mem_cons_of_mem a (ih (hr ▸ List.mem_cons_of_mem q h) hc)

/-- A list without the separator splits into itself alone. -/
theorem jsSplit_of_not_mem {sep : Char} {l : List Char} (h : sep ∉ l) :
    jsSplit sep l = [l] := by
  induction l with
  | nil => rfl
  | cons a rest ih =>
    have ha : a ≠ sep := fun hc => h (hc ▸ List.mem_cons_self a rest)
    have hrest : sep ∉ rest := fun hc => h (List.mem_cons_of_mem a hc)
    simp only [jsSplit, if_neg ha, ih hrest]

/-- Unfolding of the decoder at a head that is not a percent sign. -/
theorem decode_cons_ne (c : Char) (rest : List Char) (hc : c ≠ '%') :
    decodeURIComponentChars (c :: rest) =
      (decodeURIComponentChars rest).map (fun t => c :: t) := by
  cases rest with
  | nil => simp [decodeURIComponentChars, hc]
  | cons d rest2 =>
    cases rest2 with
    | nil => simp [decodeURIComponentChars, hc]
    | cons e rest3 => simp [decodeURIComponentChars, hc]

/-- Percent-free input passes through the decoder unchanged. -/
theorem decode_of_no_percent {l : List Char} (h : '%' ∉ l) :
    decodeURIComponentChars l = some l := by
  induction l with
  | nil => rfl
  | cons c rest ih =>
    have hc : c ≠ '%' := fun he => h (he ▸ List.mem_cons_self c rest)
    have hrest : '%' ∉ rest := fun he => h (List.mem_cons_of_mem c he)
    rw [decode_cons_ne c rest hc, ih hrest]
    rfl

/-- A percent-free entry never makes the reduce step throw. -/
theorem parseCookieEntry_isSome (acc : List (String × String)) (entry : List Char)
    (h : '%' ∉ entry) : ∃ r, parseCookieEntry acc entry = some r := by
  have hraw : '%' ∉ cookieRawValue (jsSplit '=' (trimChars entry)) := by
    rcases hp : jsSplit '=' (trimChars entry) with _ | ⟨x, _ | ⟨v, rest⟩⟩
    · simp only [cookieRawValue]
      decide
    · simp only [cookieRawValue]
      decide
    · simp only [cookieRawValue]
      intro hc
      exact h (mem_of_mem_trimChars
        (mem_of_mem_jsSplit (hp ▸ List.mem_cons_of_mem x (List.mem_cons_self v rest)) hc))
  unfold parseCookieEntry
  rw [decode_of_no_percent hraw]
  exact ⟨_, rfl⟩

/-- The cookie reduce succeeds on a list of percent-free entries. -/
theorem foldParse_isSome (entries : List (List Char)) :
    ∀ acc : List (String × String), (∀ e ∈ entries, '%' ∉ e) →
      (List.foldlM parseCookieEntry acc entries).isSome = true := by
  induction entries with
  | nil => intro acc _; rfl
  | cons e rest ih =>
    intro acc hall
    obtain ⟨acc2, hacc2⟩ :=
      parseCookieEntry_isSome acc e (hall e (List.mem_cons_self e rest))
    rw [List.foldlM_cons, hacc2]
    exact ih acc2 fun x hx => hall x (List.mem_cons_of_mem e hx)

/-- C6 (amended): cookie parsing never fails on a cookie-header string
free of percent signs, and an entry that is malformed (contains no `=`)
binds its trimmed name to the literal string "undefined" — a defined
value produced by coercing the JS `undefined` — rather than to an absent
value; a malformed percent-escape in a cookie value, however, makes the
parse throw. -/
theorem parseCookies_amended :
    (∀ s : String, '%' ∉ s.toList → (parseCookies s).isSome = true) ∧
    (∀ (cookies : List (String × String)) (entry : List Char),
      '=' ∉ entry → '%' ∉ entry →
      parseCookieEntry cookies entry =
        some (assocSet cookies (String.mk (trimChars entry)) "undefined")) ∧
    parseCookies "a=%" = none := by
  refine ⟨?_, ?_, by decide⟩
  · intro s hs
    exact foldParse_isSome (jsSplit ';' s.toList) []
      fun e he hc => hs (mem_of_mem_jsSplit he hc)
  · intro cookies entry h1 _
    have ht : '=' ∉ trimChars entry := fun hc => h1 (mem_of_mem_trimChars hc)
    unfold parseCookieEntry
    rw [jsSplit_of_not_mem ht]
    simp only [cookieRawValue, List.headD]
    rw [decode_of_no_percent (show ('%' : Char) ∉ "undefined".toList by decide)]
    rfl

/-- Closed instance of the C6 amended theorem: a well-formed header
parses, and a lone malformed entry binds its name to "undefined". -/
theorem parseCookies_amended_witness :
    (parseCookies "_ga=GA1.2.3; junk").isSome = true ∧
    parseCookieEntry [] "junk".toList = some [("junk", "undefined")] := by
  constructor
  · exact parseCookies_amended.1 "_ga=GA1.2.3; junk" (by decide)
  · rw [parseCookies_amended.2.1 [] "junk".toList (by decide) (by decide)]
    rfl

/-- C6 counterexample: the cookie header "foo" has a single entry with no
equals sign; parsing yields the defined string "undefined" for the name
"foo" — not an undefined (absent) value as the claim states. -/
theorem parseCookies_malformed_yields_defined :
    parseCookies "foo" = some [("foo", "undefined")] ∧
    assocGet [("foo", "undefined")] "foo" = some "undefined" := by
  constructor
  · rfl
  · rfl

/-- Structural unfolding of `uuidv4`: the fixed dashes, version digit and
variant nibble interleaved with the 31 random nibbles in consumption
order. -/
theorem uuidv4_unfold (f : Nat → Fin 16) :
    uuidv4 f = String.mk
      [hexChar (f 0), hexChar (f 1), hexChar (f 2), hexChar (f 3),
       hexChar (f 4), hexChar (f 5), hexChar (f 6), hexChar (f 7), '-',
       hexChar (f 8), hexChar (f 9), hexChar (f 10), hexChar (f 11), '-',
       '4', hexChar (f 12), hexChar (f 13), hexChar (f 14), '-',
       hexChar ((f 15).val % 4 + 8), hexChar (f 16), hexChar (f 17), hexChar (f 18), '-',
       hexChar (f 19), hexChar (f 20), hexChar (f 21), hexChar (f 22),
       hexChar (f 23), hexChar (f 24), hexChar (f 25), hexChar (f 26),
       hexChar (f 27), hexChar (f 28), hexChar (f 29), hexChar (f 30)] := rfl

/-- Lowercase hexadecimal character predicate. -/
abbrev uuidHexChar (c : Char) : Prop := ('0' ≤ c ∧ c ≤ '9') ∨ ('a' ≤ c ∧ c ≤ 'f')

/-- Random nibbles render as lowercase hex characters. -/
theorem hexChar_range : ∀ v : Fin 16, uuidHexChar (hexChar v.val) := by decide

/-- The variant nibble renders as one of 8, 9, a, b. -/
theorem hexChar_variant : ∀ v : Fin 16,
    hexChar (v.val % 4 + 8) = '8' ∨ hexChar (v.val % 4 + 8) = '9' ∨
    hexChar (v.val % 4 + 8) = 'a' ∨ hexChar (v.val % 4 + 8) = 'b' := by decide

/-- The variant nibble also renders as a hex character. -/
theorem hexChar_variant_hex : ∀ v : Fin 16, uuidHexChar (hexChar (v.val % 4 + 8)) := by
  decide

/-- UUID-v4 shape: 36 characters, dashes at positions 8, 13, 18, 23,
version digit 4 at position 14, variant character in 8-9a-b at position
19, every character a dash or lowercase hex. -/
def uuidShape (s : String) : Prop :=
  s.toList.length = 36 ∧
  s.toList[8]? = some '-' ∧ s.toList[13]? = some '-' ∧
  s.toList[18]? = some '-' ∧ s.toList[23]? = some '-' ∧
  s.toList[14]? = some '4' ∧
  (∃ c, s.toList[19]? = some c ∧ (c = '8' ∨ c = '9' ∨ c = 'a' ∨ c = 'b')) ∧
  ∀ c ∈ s.toList, c = '-' ∨ uuidHexChar c

/-- Every character of a replacement result is a rendered random nibble,
a rendered variant nibble, or a template character other than x and y. -/
theorem mem_uuidReplace (f : Nat → Fin 16) :
    ∀ (l : List Char) (i : Nat) (c : Char), c ∈ uuidReplace f l i →
      (∃ v : Fin 16, c = hexChar v.val) ∨
      (∃ v : Fin 16, c = hexChar (v.val % 4 + 8)) ∨
      (c ∈ l ∧ c ≠ 'x' ∧ c ≠ 'y') := by
  intro l
  induction l with
  | nil => intro i c hc; simp [uuidReplace] at hc
  | cons a rest ih =>
    intro i c hc
    by_cases hx : a = 'x'
    · rw [uuidReplace, if_pos hx] at hc
      rcases List.mem_cons.mp hc with h | h
      · exact Or.inl ⟨f i, h⟩
      · rcases ih (i + 1) c h with h2 | h2 | ⟨hm, h3, h4⟩
        · exact Or.inl h2
        · exact Or.inr (Or.inl h2)
        · exact Or.inr (Or.inr ⟨List.mem_cons_of_mem a hm, h3, h4⟩)
    · by_cases hy : a = 'y'
      · rw [uuidReplace, if_neg hx, if_pos hy] at hc
        rcases List.mem_cons.mp hc with h | h
        · exact Or.inr (Or.inl ⟨f i, h⟩)
        · rcases ih (i + 1) c h with h2 | h2 | ⟨hm, h3, h4⟩
          · exact Or.inl h2
          · exact Or.inr (Or.inl h2)
          · exact Or.inr (Or.inr ⟨List.mem_cons_of_mem a hm, h3, h4⟩)
      · rw [uuidReplace, if_neg hx, if_neg hy] at hc
        rcases List.mem_cons.mp hc with h | h
        · exact Or.inr (Or.inr ⟨h ▸ List.mem_cons_self a rest, h ▸ hx, h ▸ hy⟩)
        · rcases ih i c h with h2 | h2 | ⟨hm, h3, h4⟩
          · exact Or.inl h2
          · exact Or.inr (Or.inl h2)
          · exact Or.inr (Or.inr ⟨List.mem_cons_of_mem a hm, h3, h4⟩)

/-- Every value produced by `uuidv4` has UUID-v4 shape. -/
theorem uuidShape_uuidv4 (f : Nat → Fin 16) : uuidShape (uuidv4 f) := by
  refine ⟨by rw [uuidv4_unfold]; rfl, by rw [uuidv4_unfold]; rfl,
    by rw [uuidv4_unfold]; rfl, by rw [uuidv4_unfold]; rfl,
    by rw [uuidv4_unfold]; rfl, by rw [uuidv4_unfold]; rfl,
    ⟨hexChar ((f 15).val % 4 + 8), by rw [uuidv4_unfold]; rfl, hexChar_variant (f 15)⟩, ?_⟩
  intro c hc
  have hc2 : c ∈ uuidReplace f uuidTemplate 0 := hc
  rcases mem_uuidReplace f uuidTemplate 0 c hc2 with ⟨v, rfl⟩ | ⟨v, rfl⟩ | ⟨hm, h3, h4⟩
  · exact Or.inr (hexChar_range v)
  · exact Or.inr (hexChar_variant_hex v)
  · have hd : ∀ x ∈ uuidTemplate, x ≠ 'x' → x ≠ 'y' → (x = '-' ∨ x = '4') := by decide
    rcases hd c hm h3 h4 with h | h
    · exact Or.inl h
    · exact Or.inr (h ▸ (by decide : uuidHexChar '4'))

/-- A generated session identity is never the empty string. -/
theorem uuidv4_ne_empty (f : Nat → Fin 16) : uuidv4 f ≠ "" := by
  intro h
  have h2 : (uuidv4 f).toList.length = 36 := by rw [uuidv4_unfold]; rfl
  rw [h] at h2
  exact absurd h2 (by decide)

/-- A freshly generated client identity is never the empty string. -/
theorem clientFresh_ne_empty (m : Nat) (t : String) : Nat.repr m ++ "-" ++ t ≠ "" := by
  intro h
  have h2 := congrArg String.length h
  rw [String.length_append, String.length_append] at h2
  have e1 : String.length "-" = 1 := rfl
  have e2 : String.length "" = 0 := rfl
  rw [e1, e2] at h2
  omega

/-- C8: the identity accessors are idempotent lazy-create-on-miss reads:
from any storage state, a second call returns the value of the first and
leaves the storage slot unchanged; from a cleared slot, the call returns
a freshly generated well-formed value — the session identity has UUID-v4
shape and the client identity has the format unix-seconds, dash, random
token — which is persisted into the slot. -/
theorem identity_accessors_idempotent (slot clientSlot : Option String)
    (f : Nat → Fin 16) (nowMs : Nat) (nanoid : Option String) (fb : String) :
    ((getSessionId (getSessionId slot f).2 f).1 = (getSessionId slot f).1 ∧
     (getSessionId (getSessionId slot f).2 f).2 = (getSessionId slot f).2) ∧
    (getSessionId none f = (uuidv4 f, some (uuidv4 f)) ∧ uuidShape (uuidv4 f)) ∧
    ((getClientId (getClientId clientSlot nowMs nanoid fb).2 nowMs nanoid fb).1 =
       (getClientId clientSlot nowMs nanoid fb).1 ∧
     (getClientId (getClientId clientSlot nowMs nanoid fb).2 nowMs nanoid fb).2 =
       (getClientId clientSlot nowMs nanoid fb).2) ∧
    getClientId none nowMs nanoid fb =
      (Nat.repr (nowMs / 1000) ++ "-" ++ nanoid.getD fb,
       some (Nat.repr (nowMs / 1000) ++ "-" ++ nanoid.getD fb)) := by
  refine ⟨?_, ⟨?_, uuidShape_uuidv4 f⟩, ?_, ?_⟩
  · by_cases h : jsTruthyStr slot = true
    · simp [getSessionId, h]
    · have h1 : getSessionId slot f = (uuidv4 f, some (uuidv4 f)) := by
        simp [getSessionId, h]
      have h2 : jsTruthyStr (some (uuidv4 f)) = true := by
        simp [jsTruthyStr, uuidv4_ne_empty f]
      rw [h1]
      simp [getSessionId, h2]
  · simp [getSessionId, jsTruthyStr]
  · by_cases h : jsTruthyStr clientSlot = true
    · simp [getClientId, h]
    · have h1 : getClientId clientSlot nowMs nanoid fb =
          (Nat.repr (nowMs / 1000) ++ "-" ++ nanoid.getD fb,
           some (Nat.repr (nowMs / 1000) ++ "-" ++ nanoid.getD fb)) := by
        cases nanoid <;> simp [getClientId, h, Option.getD]
      have h2 : jsTruthyStr (some (Nat.repr (nowMs / 1000) ++ "-" ++ nanoid.getD fb)) =
          true := by
        simp [jsTruthyStr, clientFresh_ne_empty (nowMs / 1000) (nanoid.getD fb)]
      rw [h1]
      simp [getClientId, h2]
  · cases nanoid with
    | none => simp [getClientId, jsTruthyStr, Option.getD]
    | some n => simp [getClientId, jsTruthyStr, Option.getD]
